import Mathlib

/-!
Shallow embedding of `hexbee/openai-anthropic-gemini-api-key-check`.

The repository is a Python CLI that lists models, validates API keys and
runs a streaming chat against three LLM providers (OpenAI, Anthropic,
Gemini) concurrently.  The embedding models:

* `mask_api_key` (src/main.py, lines 28-32);
* the per-provider chat generators (`OpenAIProvider.chat`,
  `AnthropicProvider.chat`, `GeminiProvider.chat`): model resolution,
  chunk extraction from the vendor stream, and the error raised when no
  model is configured.  A vendor stream is modelled by the list of raw
  chunk objects delivered before the stream terminates, plus an optional
  error raised at the point the stream stops;
* `list_models` / `validate_key` for the three providers;
* `chat_single_provider` and the `run_provider` worker of
  `chat_all_providers` (src/main.py): one worker per provider pulls the
  chunks of its own stream, appending each to the entry of that provider in
  the shared content dictionary, then sets the done flag; on an
  exception it replaces the entry with an error marker and sets done.
  Since each worker touches only its own key, a session is modelled as
  the per-provider results listed in provider order
  (`runSession`), and the step-by-step evolution of the entry of one provider
  as a trace of states (`runProviderTrace`).
-/

/-- Python truthiness of an `Optional[str]`: `None` and `""` are falsy. -/
def pyTruthy : Option String → Bool
  | none => false
  | some s => !(s == "")

/-- Python `a or b` on `Optional[str]` values. -/
def pyOr (a b : Option String) : Option String :=
  if pyTruthy a then a else b

/-- Embedding of `mask_api_key` from src/main.py: all asterisks when the key has at
most 12 characters, otherwise first 4 characters, asterisks, last 4
characters (`api_key[:4]`, `'*' * (len-8)`, `api_key[-4:]`). -/
def mask_api_key (api_key : String) : String :=
  if api_key.length ≤ 12 then
    String.mk (List.replicate api_key.length '*')
  else
    String.mk (api_key.toList.take 4 ++
      List.replicate (api_key.length - 8) '*' ++
      api_key.toList.drop (api_key.length - 4))

/-- The message of the `ValueError` raised by the `chat` of every provider
when neither an explicit model nor a default model is set. -/
def noModelMsg : String := "No model specified and no default model set"

/-- The `delta` object of an OpenAI stream chunk choice. -/
structure OAIDelta where
  content : Option String
deriving Repr, DecidableEq

/-- One element of `chunk.choices` of an OpenAI stream chunk. -/
structure OAIChoice where
  delta : Option OAIDelta
deriving Repr, DecidableEq

/-- A raw chunk of an OpenAI streaming response. -/
structure OAIChunk where
  choices : List OAIChoice
deriving Repr, DecidableEq

/-- Text extracted from one OpenAI chunk by `OpenAIProvider.chat`:
`if chunk.choices and len(chunk.choices) > 0: delta = chunk.choices[0].delta;
if delta and delta.content: yield delta.content`. -/
def oaiChunkText (c : OAIChunk) : Option String :=
  match c.choices with
  | [] => none
  | ch :: _ =>
    match ch.delta with
    | none => none
    | some d =>
      match d.content with
      | none => none
      | some s => if s == "" then none else some s

/-- Embedding of `OpenAIProvider.chat` in streaming mode, as the pair (chunks yielded,
error raised at the end of iteration if any).  `model or default_model`
is resolved first; if neither is truthy a `ValueError` is raised before
any chunk is yielded.  Otherwise the generator yields the extracted text
of each raw vendor chunk in order, and re-raises the vendor error (if
the vendor stream failed) after the chunks delivered before the failure. -/
def OpenAIProvider.chat (model default_model : Option String)
    (resp : List OAIChunk) (respErr : Option String) :
    List String × Option String :=
  if pyTruthy (pyOr model default_model) then
    (resp.filterMap oaiChunkText, respErr)
  else
    ([], some noModelMsg)

/-- The `delta` object of an Anthropic stream event. -/
structure AnthDelta where
  type : String
  text : String
deriving Repr, DecidableEq

/-- A raw event of an Anthropic streaming response. -/
structure AnthChunk where
  type : String
  delta : AnthDelta
deriving Repr, DecidableEq

/-- Text extracted from one Anthropic event by `AnthropicProvider.chat`:
`if chunk.type == "content_block_delta" and chunk.delta.type == "text_delta"`. -/
def anthChunkText (c : AnthChunk) : Option String :=
  if c.type == "content_block_delta" && c.delta.type == "text_delta" then
    some c.delta.text
  else
    none

/-- Embedding of `AnthropicProvider.chat` in streaming mode, same shape as
`OpenAIProvider.chat`. -/
def AnthropicProvider.chat (model default_model : Option String)
    (resp : List AnthChunk) (respErr : Option String) :
    List String × Option String :=
  if pyTruthy (pyOr model default_model) then
    (resp.filterMap anthChunkText, respErr)
  else
    ([], some noModelMsg)

/-- A raw chunk of a Gemini streaming response. -/
structure GemChunk where
  text : Option String
deriving Repr, DecidableEq

/-- Text extracted from one Gemini chunk by `GeminiProvider.chat`:
`if chunk.text:` (truthiness: skipped when `None` or empty). -/
def gemChunkText (c : GemChunk) : Option String :=
  match c.text with
  | none => none
  | some s => if s == "" then none else some s

/-- Embedding of `GeminiProvider.chat` in streaming mode, same shape as
`OpenAIProvider.chat`. -/
def GeminiProvider.chat (model default_model : Option String)
    (resp : List GemChunk) (respErr : Option String) :
    List String × Option String :=
  if pyTruthy (pyOr model default_model) then
    (resp.filterMap gemChunkText, respErr)
  else
    ([], some noModelMsg)

/-- Unified model record produced by the `list_models` of every provider
(src/providers/base.py, `ModelInfo`). -/
structure ModelInfo where
  id : String
  name : Option String := none
  description : Option String := none
  created : Option Int := none
deriving Repr, DecidableEq

/-- A raw model object of the OpenAI models endpoint. -/
structure OAIVendorModel where
  id : String
  created : Int
deriving Repr, DecidableEq

/-- Embedding of `OpenAIProvider.list_models`: propagates a vendor failure, otherwise
maps each vendor model to a `ModelInfo`. -/
def OpenAIProvider.list_models (vendor : Except String (List OAIVendorModel)) :
    Except String (List ModelInfo) :=
  match vendor with
  | .error e => .error e
  | .ok ms => .ok (ms.map fun m =>
      { id := m.id, name := some m.id, created := some m.created })

/-- Embedding of `OpenAIProvider.validate_key`: `try: self.list_models(); return True
except Exception: return False`. -/
def OpenAIProvider.validate_key (vendor : Except String (List OAIVendorModel)) :
    Bool :=
  match OpenAIProvider.list_models vendor with
  | .ok _ => true
  | .error _ => false

/-- A raw model object of the Anthropic models endpoint.  Optional
fields model the `hasattr`/`getattr` probes of the source. -/
structure AnthVendorModel where
  id : String
  display_name : Option String := none
  description : Option String := none
  created_at : Option Int := none
deriving Repr, DecidableEq

/-- Embedding of `AnthropicProvider.list_models`. -/
def AnthropicProvider.list_models (vendor : Except String (List AnthVendorModel)) :
    Except String (List ModelInfo) :=
  match vendor with
  | .error e => .error e
  | .ok ms => .ok (ms.map fun m =>
      { id := m.id, name := some (m.display_name.getD m.id),
        description := m.description, created := m.created_at })

/-- Embedding of `AnthropicProvider.validate_key`. -/
def AnthropicProvider.validate_key (vendor : Except String (List AnthVendorModel)) :
    Bool :=
  match AnthropicProvider.list_models vendor with
  | .ok _ => true
  | .error _ => false

/-- A raw model object of the Gemini models endpoint.  `str_repr` is the
`str(model)` fallback used when the object has no `name` attribute. -/
structure GemVendorModel where
  name : Option String := none
  str_repr : String := ""
  display_name : Option String := none
  description : Option String := none
deriving Repr, DecidableEq

/-- Embedding of `GeminiProvider.list_models`. -/
def GeminiProvider.list_models (vendor : Except String (List GemVendorModel)) :
    Except String (List ModelInfo) :=
  match vendor with
  | .error e => .error e
  | .ok ms => .ok (ms.map fun m =>
      { id := m.name.getD m.str_repr, name := m.display_name,
        description := m.description })

/-- Embedding of `GeminiProvider.validate_key`. -/
def GeminiProvider.validate_key (vendor : Except String (List GemVendorModel)) :
    Bool :=
  match GeminiProvider.list_models vendor with
  | .ok _ => true
  | .error _ => false

/-- The `for chunk in ...: content += chunk` accumulation loop shared by
`chat_single_provider` and `run_provider` in src/main.py. -/
def chatLoop : List String → String → String
  | [], content => content
  | c :: cs, content => chatLoop cs (content ++ c)

/-- Embedding of `chat_single_provider` from src/main.py: accumulates the chunks of
the stream of one provider; on an exception returns `("Error: " ++ msg)` with
`success = false`; otherwise the accumulated content with
`success = true`.  Result is `(provider_name, content, success)`. -/
def chat_single_provider (name : String) (chunks : List String)
    (err : Option String) : String × String × Bool :=
  match err with
  | none => (name, chatLoop chunks "", true)
  | some e => (name, "Error: " ++ e, false)

/-- Per-provider mutable record of `chat_all_providers`: the entries of
the provider in `provider_contents` and `provider_done`. -/
structure ProviderStreamState where
  content : String
  done : Bool
deriving Repr, DecidableEq

/-- Final state written by the `run_provider` worker of
`chat_all_providers` for one provider, given the chunks its stream
yielded and the error (if any) the stream raised after them: each chunk
is appended to the content of the provider in order, then `done := true`; on
an exception the content is replaced by `"Error: " ++ msg` and
`done := true`. -/
def run_provider (chunks : List String) (err : Option String) :
    ProviderStreamState :=
  match err with
  | none => { content := chatLoop chunks "", done := true }
  | some e => { content := "Error: " ++ e, done := true }

/-- Whether the worker took the `except` branch (the stream failed). -/
def providerFailed (err : Option String) : Bool :=
  err.isSome

/-- Intermediate states of the accumulation loop: the record of the provider
after each chunk append, while `done` is still false. -/
def loopStates : List String → String → List ProviderStreamState
  | [], _ => []
  | c :: cs, content =>
      { content := content ++ c, done := false } :: loopStates cs (content ++ c)

/-- The successive values of the record of one provider while its
worker runs: the initial record (empty content, not done), the record after each
chunk append, and the terminal record written by `run_provider`. -/
def runProviderTrace (chunks : List String) (err : Option String) :
    List ProviderStreamState :=
  ({ content := "", done := false } :: loopStates chunks "") ++
    [run_provider chunks err]

/-- Observable behaviour of one provider in a chat session: its display
name, the chunks its `chat` generator yields, and the error the
generator raises after them (if any). -/
structure ProviderRun where
  name : String
  chunks : List String
  err : Option String
deriving Repr, DecidableEq

/-- The final per-provider states of a `chat_all_providers` session, in
provider order.  Each worker thread writes only the entry of its own provider
of the shared dictionaries, so the session result is the independent
per-provider results. -/
def runSession (ps : List ProviderRun) : List (String × ProviderStreamState) :=
  ps.map fun p => (p.name, run_provider p.chunks p.err)

/-- Embedding of `chat_all_providers` from src/main.py: with an empty provider list
it reports "No providers available" and exits before creating any
per-provider state or starting any thread; otherwise it runs one worker
per provider and joins them all. -/
def chat_all_providers (ps : List ProviderRun) :
    Except String (List (String × ProviderStreamState)) :=
  if ps.isEmpty then
    .error "No providers available. Check your .env configuration."
  else
    .ok (runSession ps)

-- ## Helper lemmas

theorem foldl_append_str (l : List String) (a : String) :
    l.foldl (fun r s => r ++ s) a = a ++ l.foldl (fun r s => r ++ s) "" := by
  induction l generalizing a with
  | nil => simp
  | cons c cs ih =>
      simp only [List.foldl_cons]
      rw [ih (a ++ c), ih ("" ++ c)]
      simp [String.append_assoc]

theorem join_cons (c : String) (cs : List String) :
    String.join (c :: cs) = c ++ String.join cs := by
  simp only [String.join, List.foldl_cons]
  rw [foldl_append_str cs ("" ++ c)]
  simp

theorem chatLoop_eq (cs : List String) (acc : String) :
    chatLoop cs acc = acc ++ String.join cs := by
  induction cs generalizing acc with
  | nil => simp [chatLoop, String.join]
  | cons c cs ih =>
      rw [chatLoop, ih, join_cons, String.append_assoc]

theorem loopStates_done (cs : List String) (acc : String) :
    ∀ s ∈ loopStates cs acc, s.done = false := by
  induction cs generalizing acc with
  | nil => simp [loopStates]
  | cons c cs ih =>
      intro s hs
      simp only [loopStates, List.mem_cons] at hs
      rcases hs with h | h
      · rw [h]
      · exact ih _ s h

theorem loopStates_length (cs : List String) (acc : String) :
    (loopStates cs acc).length = cs.length := by
  induction cs generalizing acc with
  | nil => rfl
  | cons c cs ih => simp [loopStates, ih]

theorem run_provider_done (chunks : List String) (err : Option String) :
    (run_provider chunks err).done = true := by
  cases err <;> rfl

theorem runProviderTrace_length (chunks : List String) (err : Option String) :
    (runProviderTrace chunks err).length = chunks.length + 2 := by
  simp [runProviderTrace, loopStates_length]

theorem runProviderTrace_getElem_done_false (chunks : List String)
    (err : Option String) (i : Nat) (s : ProviderStreamState)
    (hi : i < chunks.length + 1)
    (h : (runProviderTrace chunks err)[i]? = some s) : s.done = false := by
  have hlen : (({ content := "", done := false } : ProviderStreamState) ::
      loopStates chunks "").length = chunks.length + 1 := by
    simp [loopStates_length]
  rw [runProviderTrace, List.getElem?_append_left (by rw [hlen]; exact hi)] at h
  rcases List.mem_cons.mp (List.getElem?_mem h) with h1 | h1
  · rw [h1]
  · exact loopStates_done _ _ _ h1

theorem runProviderTrace_getElem_last (chunks : List String) (err : Option String) :
    (runProviderTrace chunks err)[chunks.length + 1]? = some (run_provider chunks err) := by
  have hlen : (({ content := "", done := false } : ProviderStreamState) ::
      loopStates chunks "").length = chunks.length + 1 := by
    simp [loopStates_length]
  rw [runProviderTrace, ← hlen]
  exact List.getElem?_concat_length _ _

theorem runSession_getElem (ps : List ProviderRun) (i : Nat) :
    (runSession ps)[i]? =
      ps[i]?.map fun p => (p.name, run_provider p.chunks p.err) := by
  simp [runSession]

theorem chat_all_providers_ok (ps : List ProviderRun) (hne : ps ≠ []) :
    chat_all_providers ps = .ok (runSession ps) := by
  rw [chat_all_providers, if_neg]
  simp [List.isEmpty_iff, hne]

-- ## Claim theorems

/-- C1: for every provider whose chunk stream succeeds (the chat
generator terminates normally), the final text recorded for that
provider equals the concatenation, in arrival order, of every chunk the
stream yielded — both in the `run_provider` worker of
`chat_all_providers` and in `chat_single_provider`, and in particular
for the chunks yielded by `OpenAIProvider.chat` when a model resolves
and the vendor stream does not fail. -/
theorem C1_lossless_accumulation (name : String) (chunks : List String)
    (model default_model : Option String) (resp : List OAIChunk)
    (hm : pyTruthy (pyOr model default_model) = true) :
    run_provider chunks none = { content := String.join chunks, done := true }
    ∧ chat_single_provider name chunks none = (name, String.join chunks, true)
    ∧ run_provider (OpenAIProvider.chat model default_model resp none).fst
        (OpenAIProvider.chat model default_model resp none).snd
      = { content := String.join (resp.filterMap oaiChunkText), done := true } := by
  refine ⟨?_, ?_, ?_⟩
  · simp [run_provider, chatLoop_eq]
  · simp [chat_single_provider, chatLoop_eq]
  · simp [OpenAIProvider.chat, hm, run_provider, chatLoop_eq]

/-- Witness for C1 at a concrete input: two chunks accumulate to their
concatenation. -/
theorem C1_lossless_accumulation_witness :
    run_provider ["Hel", "lo"] none = { content := "Hello", done := true } := by
  have h := (C1_lossless_accumulation "OpenAI" ["Hel", "lo"] (some "gpt-4o")
    none [] (by decide)).1
  rw [h]
  rfl

/-- C2 counterexample: the claim says the failing provider P3 retains
the already-delivered "Oops" prefix before the error marker.  In the
code, the `except` branch of `run_provider` *replaces* the accumulated
text with the error marker, so for the stream that yields "Oops" and
then raises "boom", the final text is "Error: boom", which does not
start with "Oops". -/
theorem C2_scenario_counterexample :
    (run_provider ["Oops"] (some "boom")).content = "Error: boom"
    ∧ (run_provider ["Oops"] (some "boom")).content.toList.take 4 ≠ "Oops".toList := by
  exact ⟨rfl, by decide⟩

/-- C2 (amended): for the three-provider scenario with streams
["Hel","lo"], ["Hi"], and ["Oops"] followed by error "boom", the final
snapshot maps P1 to ("Hello", done, no error), P2 to ("Hi", done, no
error) and P3 to ("Error: boom", done, hasError): the failing
text of the failing provider is the error marker alone, the pre-error "Oops" has
been discarded. -/
theorem C2_scenario_amended :
    runSession [{ name := "P1", chunks := ["Hel", "lo"], err := none },
                { name := "P2", chunks := ["Hi"], err := none },
                { name := "P3", chunks := ["Oops"], err := some "boom" }]
      = [("P1", { content := "Hello", done := true }),
         ("P2", { content := "Hi", done := true }),
         ("P3", { content := "Error: boom", done := true })]
    ∧ providerFailed (some "boom") = true
    ∧ providerFailed none = false := by
  exact ⟨rfl, rfl, rfl⟩

/-- C3: a provider whose stream raises mid-run gets its text replaced by
the formatted error marker with `done := true`; the entry of every other
provider is unchanged by that failure, and the overall join
(`chat_all_providers`) still returns normally. -/
theorem C3_failure_isolation (e : String) (ps : List ProviderRun) (i : Nat)
    (r : ProviderRun) (hr : r.err = some e) (hi : i < ps.length)
    (j : Nat) (hj : j ≠ i) :
    (runSession (ps.set i r))[i]? =
      some (r.name, { content := "Error: " ++ e, done := true })
    ∧ (runSession (ps.set i r))[j]? = (runSession ps)[j]?
    ∧ chat_all_providers (ps.set i r) = .ok (runSession (ps.set i r)) := by
  refine ⟨?_, ?_, ?_⟩
  · rw [runSession_getElem, List.getElem?_set_self hi]
    simp [run_provider, hr]
  · rw [runSession_getElem, runSession_getElem,
      List.getElem?_set_ne (Ne.symm hj)]
  · apply chat_all_providers_ok
    intro hnil
    have h0 : (ps.set i r).length = 0 := by rw [hnil]; rfl
    rw [List.length_set] at h0
    omega

/-- Witness for C3 at a concrete session: provider B (position 1) fails
with "net" after yielding "Oops"; its entry becomes the error marker,
the entry of provider A (position 0) is unchanged, and the join returns
normally. -/
theorem C3_failure_isolation_witness :
    (runSession (([{ name := "A", chunks := ["x"], err := none },
                   { name := "B", chunks := [], err := none }] : List ProviderRun).set 1
        { name := "B", chunks := ["Oops"], err := some "net" }))[1]? =
      some ("B", { content := "Error: net", done := true })
    ∧ (runSession (([{ name := "A", chunks := ["x"], err := none },
                     { name := "B", chunks := [], err := none }] : List ProviderRun).set 1
        { name := "B", chunks := ["Oops"], err := some "net" }))[0]? =
      (runSession [{ name := "A", chunks := ["x"], err := none },
                   { name := "B", chunks := [], err := none }])[0]?
    ∧ chat_all_providers (([{ name := "A", chunks := ["x"], err := none },
                            { name := "B", chunks := [], err := none }] : List ProviderRun).set 1
        { name := "B", chunks := ["Oops"], err := some "net" }) =
      .ok (runSession (([{ name := "A", chunks := ["x"], err := none },
                         { name := "B", chunks := [], err := none }] : List ProviderRun).set 1
        { name := "B", chunks := ["Oops"], err := some "net" })) :=
  C3_failure_isolation "net"
    [{ name := "A", chunks := ["x"], err := none },
     { name := "B", chunks := [], err := none }] 1
    { name := "B", chunks := ["Oops"], err := some "net" }
    rfl (by decide) 0 (by decide)

/-- C4: starting a chat with an empty provider list fails immediately
with the no-providers error; the empty session has no per-provider state
and no worker (the session of zero providers is the empty list). -/
theorem C4_empty_provider_set :
    chat_all_providers [] =
      .error "No providers available. Check your .env configuration."
    ∧ runSession [] = [] :=
  ⟨rfl, rfl⟩

/-- C5: a provider with no resolvable model (no truthy override, no
truthy default) fails immediately: each of the three chat generators
yields no chunk and raises the no-model error, the worker records the
Failed terminal state, the state trace goes straight from the initial
record to the terminal one (it never enters Streaming, no chunk is
appended), and the entry of every other provider in the session is
unaffected. -/
theorem C5_no_model_configured (model default_model : Option String)
    (oresp : List OAIChunk) (oerr : Option String)
    (aresp : List AnthChunk) (aerr : Option String)
    (gresp : List GemChunk) (gerr : Option String)
    (hm : pyTruthy (pyOr model default_model) = false)
    (ps : List ProviderRun) (i j : Nat) (nm : String) (hj : j ≠ i) :
    OpenAIProvider.chat model default_model oresp oerr = ([], some noModelMsg)
    ∧ AnthropicProvider.chat model default_model aresp aerr = ([], some noModelMsg)
    ∧ GeminiProvider.chat model default_model gresp gerr = ([], some noModelMsg)
    ∧ run_provider [] (some noModelMsg) =
        { content := "Error: " ++ noModelMsg, done := true }
    ∧ runProviderTrace [] (some noModelMsg) =
        [{ content := "", done := false },
         { content := "Error: " ++ noModelMsg, done := true }]
    ∧ (runSession (ps.set i { name := nm, chunks := [], err := some noModelMsg }))[j]? =
        (runSession ps)[j]? := by
  refine ⟨?_, ?_, ?_, rfl, rfl, ?_⟩
  · simp [OpenAIProvider.chat, hm]
  · simp [AnthropicProvider.chat, hm]
  · simp [GeminiProvider.chat, hm]
  · rw [runSession_getElem, runSession_getElem, List.getElem?_set_ne (Ne.symm hj)]

/-- Witness for C5: no override and no default model; a sibling session
entry at position 1 is unaffected by the failed provider at position 0. -/
theorem C5_no_model_configured_witness :
    OpenAIProvider.chat none none [] none = ([], some noModelMsg)
    ∧ AnthropicProvider.chat none none [] none = ([], some noModelMsg)
    ∧ GeminiProvider.chat none none [] none = ([], some noModelMsg)
    ∧ run_provider [] (some noModelMsg) =
        { content := "Error: " ++ noModelMsg, done := true }
    ∧ runProviderTrace [] (some noModelMsg) =
        [{ content := "", done := false },
         { content := "Error: " ++ noModelMsg, done := true }]
    ∧ (runSession (([{ name := "Gemini", chunks := [], err := none },
                     { name := "OpenAI", chunks := ["hi"], err := none }] : List ProviderRun).set 0
        { name := "Gemini", chunks := [], err := some noModelMsg }))[1]? =
        (runSession [{ name := "Gemini", chunks := [], err := none },
                     { name := "OpenAI", chunks := ["hi"], err := none }])[1]? :=
  C5_no_model_configured none none [] none [] none [] none rfl
    [{ name := "Gemini", chunks := [], err := none },
     { name := "OpenAI", chunks := ["hi"], err := none }] 0 1 "Gemini" (by decide)

/-- C6: for every provider and any vendor response, `validate_key`
returns true exactly when `list_models` succeeds; `validate_key` is a
total Boolean function of the vendor outcome (every exception is caught,
it never raises). -/
theorem C6_validate_key_iff_list_models
    (vo : Except String (List OAIVendorModel))
    (va : Except String (List AnthVendorModel))
    (vg : Except String (List GemVendorModel)) :
    (OpenAIProvider.validate_key vo = true ↔
      (OpenAIProvider.list_models vo).isOk = true)
    ∧ (AnthropicProvider.validate_key va = true ↔
      (AnthropicProvider.list_models va).isOk = true)
    ∧ (GeminiProvider.validate_key vg = true ↔
      (GeminiProvider.list_models vg).isOk = true) := by
  refine ⟨?_, ?_, ?_⟩
  · cases vo <;>
      simp [OpenAIProvider.validate_key, OpenAIProvider.list_models,
        Except.isOk, Except.toBool]
  · cases va <;>
      simp [AnthropicProvider.validate_key, AnthropicProvider.list_models,
        Except.isOk, Except.toBool]
  · cases vg <;>
      simp [GeminiProvider.validate_key, GeminiProvider.list_models,
        Except.isOk, Except.toBool]

/-- C7: for every non-empty provider list, the session returns normally
with exactly one entry per provider, keyed by provider name in provider
order, and the done flag of every entry is true. -/
theorem C7_one_entry_per_provider (ps : List ProviderRun) (hne : ps ≠ []) :
    chat_all_providers ps = .ok (runSession ps)
    ∧ (runSession ps).length = ps.length
    ∧ (runSession ps).map Prod.fst = ps.map ProviderRun.name
    ∧ ∀ entry ∈ runSession ps, entry.2.done = true := by
  refine ⟨chat_all_providers_ok ps hne, by simp [runSession], ?_, ?_⟩
  · simp [runSession]
  · intro entry he
    simp only [runSession, List.mem_map] at he
    obtain ⟨p, _, hp⟩ := he
    rw [← hp]
    exact run_provider_done _ _

/-- Witness for C7 at a one-provider session. -/
theorem C7_one_entry_per_provider_witness :
    chat_all_providers [{ name := "OpenAI", chunks := ["hi"], err := none }] =
      .ok (runSession [{ name := "OpenAI", chunks := ["hi"], err := none }])
    ∧ (runSession [{ name := "OpenAI", chunks := ["hi"], err := none }]).length =
      ([{ name := "OpenAI", chunks := ["hi"], err := none }] : List ProviderRun).length
    ∧ (runSession [{ name := "OpenAI", chunks := ["hi"], err := none }]).map Prod.fst =
      ([{ name := "OpenAI", chunks := ["hi"], err := none }] : List ProviderRun).map
        ProviderRun.name
    ∧ ∀ entry ∈ runSession [{ name := "OpenAI", chunks := ["hi"], err := none }],
        entry.2.done = true :=
  C7_one_entry_per_provider
    [{ name := "OpenAI", chunks := ["hi"], err := none }] (by decide)

/-- C8: along the state trace of one provider, the done flag is monotonic —
a done state is never followed by a not-done state — and the content
never changes after done is set (no chunk is appended after done becomes
true or after the error marker is written; the trace is produced solely
by the pull loop of the owning worker). -/
theorem C8_done_monotone (chunks : List String) (err : Option String)
    (i j : Nat) (si sj : ProviderStreamState) (hij : i ≤ j)
    (hi : (runProviderTrace chunks err)[i]? = some si)
    (hj : (runProviderTrace chunks err)[j]? = some sj)
    (hdone : si.done = true) :
    sj.done = true ∧ sj.content = si.content := by
  have hilen : i < chunks.length + 2 := by
    rcases List.getElem?_eq_some.mp hi with ⟨h, _⟩
    rwa [runProviderTrace_length] at h
  have hjlen : j < chunks.length + 2 := by
    rcases List.getElem?_eq_some.mp hj with ⟨h, _⟩
    rwa [runProviderTrace_length] at h
  have hieq : i = chunks.length + 1 := by
    by_contra hne
    have hlt : i < chunks.length + 1 := by omega
    have := runProviderTrace_getElem_done_false chunks err i si hlt hi
    rw [hdone] at this
    exact Bool.true_eq_false.mp this
  have hjeq : j = chunks.length + 1 := by omega
  rw [hieq, runProviderTrace_getElem_last] at hi
  rw [hjeq, runProviderTrace_getElem_last] at hj
  have h1 : run_provider chunks err = si := Option.some_inj.mp hi
  have h2 : run_provider chunks err = sj := Option.some_inj.mp hj
  rw [← h1, ← h2]
  exact ⟨run_provider_done _ _, rfl⟩

/-- Witness for C8 on the trace of a one-chunk stream, at the terminal
index. -/
theorem C8_done_monotone_witness :
    ({ content := "a", done := true } : ProviderStreamState).done = true
    ∧ ({ content := "a", done := true } : ProviderStreamState).content =
      ({ content := "a", done := true } : ProviderStreamState).content :=
  C8_done_monotone ["a"] none 2 2
    { content := "a", done := true } { content := "a", done := true }
    (Nat.le_refl 2) (by decide) (by decide) rfl

/-- C9: the worker of each provider writes only its own entry of the session:
if provider A sits at position i, replacing the stream behaviour of a
different position j — in particular injecting a transport failure into
provider B there — leaves the recorded entry of A exactly as before; and when
the stream of A itself had succeeded, that entry is the concatenation of
its chunks
with done = true. -/
theorem C9_frame_other_provider (ps : List ProviderRun) (i j : Nat)
    (b : ProviderRun) (hij : i ≠ j) (pA : ProviderRun)
    (hA : ps[i]? = some pA) :
    (runSession (ps.set j b))[i]? =
      some (pA.name, run_provider pA.chunks pA.err)
    ∧ (pA.err = none →
        run_provider pA.chunks pA.err =
          { content := String.join pA.chunks, done := true }) := by
  constructor
  · rw [runSession_getElem, List.getElem?_set_ne (Ne.symm hij), hA]
    rfl
  · intro h
    rw [h]
    simp [run_provider, chatLoop_eq]

/-- Witness for C9: provider A at position 0 completed with "done";
injecting a failing B at position 1 leaves the entry of A unchanged. -/
theorem C9_frame_other_provider_witness :
    (runSession (([{ name := "A", chunks := ["do", "ne"], err := none },
                   { name := "B", chunks := ["x"], err := none }] : List ProviderRun).set 1
        { name := "B", chunks := [], err := some "net" }))[0]? =
      some ("A", run_provider ["do", "ne"] none)
    ∧ ((none : Option String) = none →
        run_provider ["do", "ne"] none =
          { content := String.join ["do", "ne"], done := true }) :=
  C9_frame_other_provider
    [{ name := "A", chunks := ["do", "ne"], err := none },
     { name := "B", chunks := ["x"], err := none }] 0 1
    { name := "B", chunks := [], err := some "net" }
    (by decide) { name := "A", chunks := ["do", "ne"], err := none } rfl

/-- C10: `mask_api_key` preserves the length of the key; keys of length
at most 12 are fully masked; longer keys keep exactly the first 4 and
last 4 characters with asterisks in between, so no character strictly
between position 4 and position (length - 4) is ever revealed. -/
theorem C10_mask_api_key_shape (k : String) :
    (mask_api_key k).length = k.length
    ∧ (k.length ≤ 12 → (mask_api_key k).toList = List.replicate k.length '*')
    ∧ (12 < k.length → (mask_api_key k).toList =
        k.toList.take 4 ++ List.replicate (k.length - 8) '*' ++
        k.toList.drop (k.length - 4))
    ∧ ∀ i, 4 ≤ i → i + 4 < k.length →
        (mask_api_key k).toList[i]? = some '*' := by
  have hL : k.toList.length = k.length := rfl
  refine ⟨?_, ?_, ?_, ?_⟩
  · by_cases hc : k.length ≤ 12
    · simp only [mask_api_key, if_pos hc]
      show (List.replicate k.length '*').length = k.length
      simp
    · simp only [mask_api_key, if_neg hc]
      show (k.toList.take 4 ++ List.replicate (k.length - 8) '*' ++
        k.toList.drop (k.length - 4)).length = k.length
      simp only [List.length_append, List.length_take, List.length_replicate,
        List.length_drop, hL]
      omega
  · intro hc
    simp [mask_api_key, hc]
  · intro hc
    have hnc : ¬ k.length ≤ 12 := by omega
    simp [mask_api_key, hnc]
  · intro i h4 hi
    by_cases hc : k.length ≤ 12
    · have hik : i < k.length := by omega
      have hmask : (mask_api_key k).toList = List.replicate k.length '*' := by
        simp only [mask_api_key, if_pos hc]
        rfl
      rw [hmask, List.getElem?_replicate, if_pos hik]
    · have htake : (k.toList.take 4).length = 4 := by
        simp only [List.length_take, hL]
        omega
      have hmask : (mask_api_key k).toList =
          k.toList.take 4 ++ List.replicate (k.length - 8) '*' ++
          k.toList.drop (k.length - 4) := by
        simp only [mask_api_key, if_neg hc]
        rfl
      rw [hmask,
        List.getElem?_append_left (by
          simp only [List.length_append, htake, List.length_replicate]
          omega),
        List.getElem?_append_right (by rw [htake]; omega), htake,
        List.getElem?_replicate, if_pos (by omega)]

/-- Witness for C10 on a 19-character key: length preserved and the
character at position 5 is masked. -/
theorem C10_mask_api_key_shape_witness :
    (mask_api_key "sk-1234567890abcdef").length = ("sk-1234567890abcdef").length
    ∧ (mask_api_key "sk-1234567890abcdef").toList[5]? = some '*' :=
  ⟨(C10_mask_api_key_shape "sk-1234567890abcdef").1,
    (C10_mask_api_key_shape "sk-1234567890abcdef").2.2.2 5 (by decide) (by decide)⟩
